import Mathlib

/-!
Shallow embedding of the weather-bot source (src/main.py) and proofs about it.

Conventions of the embedding:
* Python floats are modelled as exact rationals (`ℚ`) where the code only does
  field arithmetic and comparisons, and as reals (`ℝ`) where `math.sqrt` /
  `math.log10` are involved.
* A Python value that may be `None` is an `Option`.
* Python strings are Lean `String`s; `f"{x:n}"` right-alignment is `padLeft`.
-/

/-- WIND_DIRECTIONS table (source lines 43-53): label, lower bound, upper
bound.  The decimal bounds (11.25, 33.75, ...) are written as exact quarters
`mkRat (4*bound) 4` so that the table evaluates by kernel reduction. -/
def WIND_DIRECTIONS : List (String × ℚ × ℚ) :=
  [("N", mkRat 1395 4, 360), ("N", 0, mkRat 45 4),
   ("NNE", mkRat 45 4, mkRat 135 4), ("NE", mkRat 135 4, mkRat 225 4),
   ("ENE", mkRat 225 4, mkRat 315 4), ("E", mkRat 315 4, mkRat 405 4),
   ("ESE", mkRat 405 4, mkRat 495 4), ("SE", mkRat 495 4, mkRat 585 4),
   ("SSE", mkRat 585 4, mkRat 675 4), ("S", mkRat 675 4, mkRat 765 4),
   ("SSO", mkRat 765 4, mkRat 855 4), ("SO", mkRat 855 4, mkRat 945 4),
   ("OSO", mkRat 945 4, mkRat 1035 4), ("O", mkRat 1035 4, mkRat 1125 4),
   ("ONO", mkRat 1125 4, mkRat 1215 4), ("NO", mkRat 1215 4, mkRat 1305 4),
   ("NNO", mkRat 1305 4, mkRat 1395 4)]

/-- Names of the configured locations, in declaration order (source lines 33-40). -/
def LOCATION_NAMES : List String :=
  ["S.Jor", "Cuchi", "V.Alp", "Peder", "N.Pau", "Merlo"]

/-- First matching sector of the WIND_DIRECTIONS table, defaulting to "N"
(the loop body of degrees_to_direction, source lines 79-82). -/
def sectorLabel (d : ℚ) : String :=
  match WIND_DIRECTIONS.find? (fun e => decide (e.2.1 ≤ d) && decide (d < e.2.2)) with
  | some e => e.1
  | none => "N"

/-- degrees_to_direction (source lines 74-82): `None` yields the sentinel,
otherwise the first matching sector, defaulting to "N". -/
def degrees_to_direction (degrees : Option ℚ) : String :=
  match degrees with
  | none => "?"
  | some d => sectorLabel d

/-- Modelled from the spec: modulo normalization of a degree value into
[0,360), used to state what the spec says `compassDirection` does before the
sector lookup (the source has no such normalization). -/
def normalize360 (d : ℚ) : ℚ := d - 360 * (Rat.floor (d / 360) : ℚ)

/-- Modelled from the spec: `compassDirection` as the spec describes it —
normalize into [0,360), then the half-open sector lookup. -/
def compassDirection_spec (d : ℚ) : String := sectorLabel (normalize360 d)

/-- calculate_dew_point (source lines 84-91): `None` inputs or humidity ≤ 0
give `None`; otherwise `temp + 35 * log10(humidity / 100)`. -/
noncomputable def calculate_dew_point (temp humidity : Option ℝ) : Option ℝ :=
  match temp, humidity with
  | some t, some h => if h ≤ 0 then none else some (t + 35 * Real.logb 10 (h / 100))
  | none, _ => none
  | some _, none => none

/-- calculate_thermal_velocity (source lines 93-111): `None` inputs give
`None`; a zero `|temp - rocio|`, a zero denominator or a negative numerator
give `None`; otherwise `5.6 * sqrt(numerator / denominator)`. -/
noncomputable def calculate_thermal_velocity
    (rocio_termica rocio temp : Option ℝ) : Option ℝ :=
  match rocio_termica, rocio, temp with
  | some rt, some r, some t =>
    if |t - r| = 0 then none
    else if (1.1 : ℝ) ^ |t - r| = 0 ∨ (1.1 : ℝ) ^ |rt - r| - 1 < 0 then none
    else some (5.6 * Real.sqrt (((1.1 : ℝ) ^ |rt - r| - 1) / (1.1 : ℝ) ^ |t - r|))
  | _, _, _ => none

/-- Right alignment to a minimum width, as Python `f"{x:w}"` / `"{:>w}"` does:
the string is left untouched when it is already at least `w` characters. -/
def padLeft (w : Nat) (s : String) : String :=
  if w ≤ s.length then s else String.mk (List.replicate (w - s.length) ' ') ++ s

/-- Python `round` on an exact value: round half to even, computed on the
reduced numerator/denominator (the quotient is the floor, the remainder over
the denominator is the fractional part) so that it evaluates by kernel
reduction. -/
def roundPy (q : ℚ) : ℤ :=
  let d : ℤ := (q.den : ℤ)
  let f : ℤ := q.num.ediv d
  let r : ℤ := q.num.emod d
  if 2 * r < d then f
  else if d < 2 * r then f + 1
  else if f.emod 2 = 0 then f else f + 1

/-- Python `f"{x:.1f}"` on an exact value: one decimal, round half to even.
`10 * q` is written `mkRat (10 * q.num) q.den` (the same rational) so that it
evaluates by kernel reduction. -/
def fmt1 (q : ℚ) : String :=
  let n := roundPy (mkRat (10 * q.num) q.den)
  let m := n.natAbs
  (if n < 0 then "-" else "") ++ toString (m / 10) ++ "." ++ toString (m % 10)

/-- The slice of the per-day processed-data dictionary that the table renderer
reads (source lines 265-292): averaged wind speeds and directions, cloud
cover, and the three thermal velocities.  Every entry may be absent. -/
structure ProcessedData where
  wind10 : Option ℚ
  wind850 : Option ℚ
  wind800 : Option ℚ
  wind750 : Option ℚ
  cloud : Option ℚ
  dir10 : Option ℚ
  dir850 : Option ℚ
  dir800 : Option ℚ
  dir750 : Option ℚ
  th850 : Option ℚ
  th800 : Option ℚ
  th750 : Option ℚ

/-- A processed-data record with every value absent. -/
def emptyData : ProcessedData :=
  ⟨none, none, none, none, none, none, none, none, none, none, none, none⟩

/-- Row-1 magnitude cell (source lines 265-269): `round(value)` when present,
the placeholder `0` when absent. -/
def windCell (v : Option ℚ) : ℤ :=
  match v with
  | some q => roundPy q
  | none => 0

/-- Thermal-velocity cell (source lines 275-277): `f"{v:.1f}"` when present,
the placeholder "0.0" when absent. -/
def thermalCell (v : Option ℚ) : String :=
  match v with
  | some q => fmt1 q
  | none => "0.0"

/-- Dispersion shown under a thermal velocity (source lines 288-290):
`abs(v * 0.1)` when present — written `mkRat |v.num| (v.den * 10)`, the same
rational, so that it evaluates by kernel reduction — and the placeholder
`0.1` when absent. -/
def stdVal (v : Option ℚ) : ℚ :=
  match v with
  | some q => mkRat (q.num.natAbs : ℤ) (q.den * 10)
  | none => mkRat 1 10

/-- Body of the first row of a location (source line 279), without the
leading location label. -/
def row1_body (d : ProcessedData) : String :=
  "|" ++ padLeft 2 (toString (windCell d.wind10)) ++ " |"
      ++ padLeft 3 (toString (windCell d.wind850)) ++ " |"
      ++ padLeft 2 (toString (windCell d.wind800)) ++ " |"
      ++ padLeft 3 (toString (windCell d.wind750)) ++ " |"
      ++ padLeft 2 (toString (windCell d.cloud)) ++ "|"
      ++ padLeft 4 (thermalCell d.th850) ++ "|"
      ++ padLeft 4 (thermalCell d.th800) ++ "|"
      ++ padLeft 4 (thermalCell d.th750) ++ "|"

/-- First rendered row of a location (source line 279). -/
def row1 (name : String) (d : ProcessedData) : String := name ++ row1_body d

/-- Body of the second row of a location (source line 292), without the
leading location label. -/
def row2_body (d : ProcessedData) : String :=
  "|" ++ padLeft 3 (degrees_to_direction d.dir10) ++ "|"
      ++ padLeft 4 (degrees_to_direction d.dir850) ++ "|"
      ++ padLeft 3 (degrees_to_direction d.dir800) ++ "|"
      ++ padLeft 4 (degrees_to_direction d.dir750) ++ "|% |±"
      ++ fmt1 (stdVal d.th850) ++ "|±"
      ++ fmt1 (stdVal d.th800) ++ "|±"
      ++ fmt1 (stdVal d.th750) ++ "|"

/-- Second rendered row of a location (source line 292). -/
def row2 (name : String) (d : ProcessedData) : String := name ++ row2_body d

/-- A timestamp as the target-index search reads it (source line 153-154):
only the day of month and the hour are examined. -/
structure TimeStamp where
  day : Nat
  hour : Nat

/-- The `hourly` block of one model response: the optional `time` array and
the variable arrays that are present, each a list of numeric-or-null cells. -/
structure Hourly where
  time : Option (List TimeStamp)
  vars : List (String × List (Option ℚ))

/-- One model's response dictionary; `hourly` may be missing. -/
structure ModelData where
  hourly : Option Hourly

/-- Inner loop of the index search (source lines 152-156): first position in
the time array whose day of month matches the target and whose hour is 15. -/
def findHourIndex (dom : Nat) : List TimeStamp → Option Nat
  | [] => none
  | t :: ts =>
    if t.day = dom ∧ t.hour = 15 then some 0
    else (findHourIndex dom ts).map (fun i => i + 1)

/-- Outer loop of the index search (source lines 149-158): the first model in
input order that yields an exact match provides the shared index. -/
def findTargetIndex (allData : List (String × ModelData)) (dom : Nat) : Option Nat :=
  match allData with
  | [] => none
  | p :: rest =>
    match p.2.hourly with
    | none => findTargetIndex rest dom
    | some h =>
      match h.time with
      | none => findTargetIndex rest dom
      | some ts =>
        match findHourIndex dom ts with
        | some i => some i
        | none => findTargetIndex rest dom

/-- Index actually used by process_weather_data (source lines 160-162): the
exact match when one exists, else the positional fallback. -/
def usedIndex (allData : List (String × ModelData)) (dom dayIndex : Nat) : Nat :=
  match findTargetIndex allData dom with
  | some i => i
  | none => dayIndex * 24 + 15

/-- Value collection for one variable (source lines 185-195): every model
with an `hourly` block and this variable array long enough contributes its
non-null cell at the shared index, in model order. -/
def collectValues (allData : List (String × ModelData)) (varName : String)
    (idx : Nat) : List ℚ :=
  allData.flatMap (fun p =>
    match p.2.hourly with
    | none => []
    | some h =>
      match h.vars.find? (fun q => q.1 == varName) with
      | none => []
      | some q =>
        if idx < q.2.length then
          match q.2.getD idx none with
          | some v => [v]
          | none => []
        else [])

/-- statistics.mean branch of the aggregation (source lines 198-200, 206):
absent when no values were collected. -/
def aggMean (values : List ℚ) : Option ℚ :=
  if values.isEmpty then none else some (values.sum / (values.length : ℚ))

/-- Sample variance with the n-1 denominator, the radicand of
statistics.stdev. -/
def sampleVariance (values : List ℚ) : ℚ :=
  let m := values.sum / (values.length : ℚ)
  (values.map (fun v => (v - m) ^ 2)).sum / ((values.length : ℚ) - 1)

/-- statistics.stdev: square root of the sample variance. -/
noncomputable def sampleStdev (values : List ℚ) : ℝ :=
  Real.sqrt ((sampleVariance values : ℚ) : ℝ)

/-- Standard-deviation branch of the aggregation (source lines 198-207):
absent for no values, the literal number 0 for a single value, the sample
standard deviation for two or more. -/
noncomputable def aggStd (values : List ℚ) : Option ℝ :=
  if values.isEmpty then none
  else if 1 < values.length then some (sampleStdev values) else some 0

/-- Per-variable slice of process_weather_data (source lines 142-207): the
pair (variable_avg, variable_std) it stores for one variable name. -/
noncomputable def process_weather_data_var (allData : List (String × ModelData))
    (dom dayIndex : Nat) (varName : String) : Option ℚ × Option ℝ :=
  let vs := collectValues allData varName (usedIndex allData dom dayIndex)
  (aggMean vs, aggStd vs)

/-- Day label of the table header (source lines 244-249). -/
def dayLabel (dayIndex : Nat) : String :=
  if dayIndex = 0 then "hoy"
  else if dayIndex = 1 then "mañ"
  else "pas+" ++ toString (dayIndex - 1)

/-- format_table_for_day (source lines 237-298).  The parts of the header
that depend on the wall clock are abstracted into `dateText`.  Locations are
walked in configuration order and those absent from `locData` are skipped
(source lines 258-260). -/
def format_table_for_day (dayIndex : Nat) (dateText : String)
    (locData : List (String × ProcessedData)) : String :=
  "Prono: " ++ dayLabel dayIndex ++ " " ++ dateText ++ " 15hs\n"
    ++ "*****|viento km/h      |nb|térmica m/s\n"
    ++ "*****| ↓ |1,5k|2k |2,5k|% |1,5k|2k  |2,5k|\n\n"
    ++ String.join (LOCATION_NAMES.filterMap (fun n =>
        (locData.find? (fun p => p.1 == n)).map (fun p =>
          row1 n p.2 ++ "\n" ++ row2 n p.2 ++ "\n\n")))

/-- Outcome of handling one inbound message on the default-locations path. -/
inductive MsgOutcome where
  | errorMsg : MsgOutcome
  | tables : List String → MsgOutcome

/-- The per-location fetch results kept by process_message (source lines
424-428): locations whose fetch produced no model data are left out. -/
def allPairs (fetch : String → List (String × ModelData)) :
    List (String × List (String × ModelData)) :=
  (LOCATION_NAMES.map (fun n => (n, fetch n))).filter (fun p => !p.2.isEmpty)

/-- Default-locations branch of process_message (source lines 417-444).
`fetch` stands for fetch_weather_data per location and `dataFor` abstracts
the per-day aggregation (process_weather_data) that fills the record the
renderer reads; neither affects the table count or the set of rendered
locations.  When no location has data an error message replaces the tables
(source lines 430-432); otherwise one table per day offset 0..3 is built. -/
def process_message_default (fetch : String → List (String × ModelData))
    (dataFor : List (String × ModelData) → Nat → ProcessedData)
    (dateText : Nat → String) : MsgOutcome :=
  if (allPairs fetch).isEmpty then MsgOutcome.errorMsg
  else MsgOutcome.tables ((List.range 4).map (fun day =>
    format_table_for_day day (dateText day)
      ((allPairs fetch).map (fun p => (p.1, dataFor p.2 day)))))

/-- An inbound update: its identifier and whether handling its message raised
an internal fault (process_message catches such faults internally, source
lines 446-452). -/
structure Update where
  update_id : ℤ
  faulty : Bool

/-- Initial cursor value (source line 62). -/
def initial_last_update_id : ℤ := 0

/-- Cursor after one pass of the polling loop body over a batch (source
lines 484-488): `last_update_id` is overwritten with each update's
identifier before its message is handled, so a handling fault never
prevents the advance. -/
def run_batch (cursor : ℤ) (updates : List Update) : ℤ :=
  updates.foldl (fun _ u => u.update_id) cursor

/-- Offset requested by the next getUpdates poll (source line 457). -/
def next_offset (cursor : ℤ) : ℤ := cursor + 1

/-- Numeric value of one decimal digit character. -/
def digitVal (c : Char) : Nat := c.toNat - 48

/-- Numeric value of a digit string, most significant first. -/
def digitsToNat (ds : List Char) : Nat :=
  ds.foldl (fun a c => 10 * a + digitVal c) 0

/-- One number of the coordinate pattern (source line 360): an optional
minus sign, at least one digit, an optional dot and further digits.  Returns
the value and the unconsumed rest.  Greedy matching by maximal munch, which
coincides with the regex because no digit or dot can ever satisfy the comma
that must follow. -/
def parseNumber (s : List Char) : Option (ℚ × List Char) :=
  let p :=
    match s with
    | '-' :: rest => (true, rest)
    | _ => (false, s)
  let d := p.2.span Char.isDigit
  if d.1.isEmpty then none
  else
    match d.2 with
    | '.' :: rest =>
      let f := rest.span Char.isDigit
      let mag : ℤ :=
        (digitsToNat d.1 : ℤ) * ((10 : ℕ) ^ f.1.length : ℕ) + (digitsToNat f.1 : ℤ)
      some (mkRat (if p.1 then -mag else mag) ((10 : ℕ) ^ f.1.length), f.2)
    | _ =>
      some (mkRat (if p.1 then -(digitsToNat d.1 : ℤ) else (digitsToNat d.1 : ℤ)) 1, d.2)

/-- Whitespace class of the regex `\s` (ASCII part). -/
def isSpaceRe (c : Char) : Bool :=
  c = ' ' || c = '\t' || c = '\n' || c = '\r' || c = '\x0b' || c = '\x0c'

/-- The full pattern anchored at the start of `s`: number, comma, optional
whitespace, number. -/
def matchAt (s : List Char) : Option (ℚ × ℚ) :=
  match parseNumber s with
  | none => none
  | some q =>
    match q.2 with
    | ',' :: r2 =>
      match parseNumber (r2.dropWhile isSpaceRe) with
      | some q2 => some (q.1, q2.1)
      | none => none
    | _ => none

/-- re.search over the text: the match at the leftmost position where the
pattern matches. -/
def searchMatch : List Char → Option (ℚ × ℚ)
  | [] => none
  | c :: rest =>
    match matchAt (c :: rest) with
    | some p => some p
    | none => searchMatch rest

/-- parse_coordinates (source lines 358-372): the first match of the pattern
is range-checked; out of range or no match gives `None`. -/
def parse_coordinates (s : List Char) : Option (ℚ × ℚ) :=
  match searchMatch s with
  | some p =>
    if -90 ≤ p.1 ∧ p.1 ≤ 90 ∧ -180 ≤ p.2 ∧ p.2 ≤ 180 then some p else none
  | none => none

/-- Which locations a message selects. -/
inductive LocChoice where
  | custom : ℚ → ℚ → LocChoice
  | defaults : LocChoice

/-- Location-selection step of process_message (source lines 396-424): a
parsed coordinate pair selects the single ad hoc location, otherwise the
configured default set is used. -/
def message_locations (s : List Char) : LocChoice :=
  match parse_coordinates s with
  | some p => LocChoice.custom p.1 p.2
  | none => LocChoice.defaults

/-- Fixture: one model whose time array has no 15:00 entry on day 25 but
whose wind-speed array is long enough for the positional fallback index 15. -/
def data1 : List (String × ModelData) :=
  [("icon_seamless",
    ⟨some ⟨some [⟨1, 0⟩], [("wind_speed_10m", List.replicate 16 (some 7))]⟩⟩)]

/-- Fixture: two models, each with an exact 15:00 match on day 5 at index 0,
reporting wind directions 350 and 10. -/
def data2 : List (String × ModelData) :=
  [("icon_seamless",
    ⟨some ⟨some [⟨5, 15⟩], [("wind_direction_10m", [some 350])]⟩⟩),
   ("gfs_seamless",
    ⟨some ⟨some [⟨5, 15⟩], [("wind_direction_10m", [some 10])]⟩⟩)]

/-- Fixture: message text whose first coordinate match is out of range while
a later match is in range. -/
def sampleText1 : String := "999,0 10,20"

/-- Fixture: message text with a single in-range coordinate match. -/
def sampleText2 : String := "hola 10,20"

/-- Fixture: a fetch function that succeeds for exactly one location. -/
def fetchOne (n : String) : List (String × ModelData) :=
  if n = "S.Jor" then data1 else []

/-- Fixture: a renderer record with every field present and small. -/
def fullData : ProcessedData :=
  ⟨some 10, some 20, some 30, some 40, some 50, some 100, some 200, some 300,
   some 350, some 2, some 3, some 4⟩

/-- Bounds under which a renderer row keeps its layout width: every present
value renders inside its column's minimum field width. -/
def rendersInWidth (d : ProcessedData) : Prop :=
  (∀ q, d.wind10 = some q → (toString (roundPy q)).length ≤ 2) ∧
  (∀ q, d.wind850 = some q → (toString (roundPy q)).length ≤ 3) ∧
  (∀ q, d.wind800 = some q → (toString (roundPy q)).length ≤ 2) ∧
  (∀ q, d.wind750 = some q → (toString (roundPy q)).length ≤ 3) ∧
  (∀ q, d.cloud = some q → (toString (roundPy q)).length ≤ 2) ∧
  (∀ q, d.th850 = some q → (fmt1 q).length ≤ 4 ∧ (fmt1 (stdVal (some q))).length = 3) ∧
  (∀ q, d.th800 = some q → (fmt1 q).length ≤ 4 ∧ (fmt1 (stdVal (some q))).length = 3) ∧
  (∀ q, d.th750 = some q → (fmt1 q).length ≤ 4 ∧ (fmt1 (stdVal (some q))).length = 3)

/-- C4: for equal level temperature and level dew point (zero denominator)
or a negative radicand numerator, calculate_thermal_velocity returns the
absent value — never zero, an exception, a NaN or a complex leak; any
present result is a nonnegative real. -/
theorem thermal_velocity_edge_cases (rt r t : ℝ) :
    ((t = r ∨ (1.1 : ℝ) ^ |rt - r| - 1 < 0) →
      calculate_thermal_velocity (some rt) (some r) (some t) = none) ∧
    (∀ v, calculate_thermal_velocity (some rt) (some r) (some t) = some v → 0 ≤ v) := by
  constructor
  · intro h
    rcases h with h | h
    · simp [calculate_thermal_velocity, h]
    · by_cases h0 : |t - r| = 0
      · simp [calculate_thermal_velocity, h0]
      · simp [calculate_thermal_velocity, h0, h]
  · intro v hv
    by_cases h0 : |t - r| = 0
    · simp [calculate_thermal_velocity, h0] at hv
    · simp [calculate_thermal_velocity, h0] at hv
      rw [← hv.2]
      positivity

/-- C4 witness: the zero-denominator edge at concrete inputs. -/
theorem thermal_velocity_edge_cases_witness :
    calculate_thermal_velocity (some 0) (some 1) (some 1) = none :=
  (thermal_velocity_edge_cases 0 1 1).1 (Or.inl rfl)

/-- C5 counterexample: at temperature 20 and humidity 0 the code returns the
absent value; no clamping to a positive floor happens and no number is
produced, contrary to the claim. -/
theorem dew_point_no_clamp_counterexample :
    calculate_dew_point (some 20) (some 0) = none := by
  simp [calculate_dew_point]

/-- C5 (amended): for humidity ≤ 0 the dew point is the absent value (no
domain error and no clamped computation); for temperature 20 and humidity
100 it is exactly 20; a missing input gives the absent value. -/
theorem dew_point_behavior :
    (∀ t h : ℝ, h ≤ 0 → calculate_dew_point (some t) (some h) = none) ∧
    calculate_dew_point (some 20) (some 100) = some 20 ∧
    (∀ h, calculate_dew_point none h = none) ∧
    (∀ t : ℝ, calculate_dew_point (some t) none = none) := by
  refine ⟨?_, ?_, ?_, ?_⟩
  · intro t h hh
    simp [calculate_dew_point, hh]
  · simp only [calculate_dew_point]
    rw [if_neg (by norm_num)]
    norm_num [Real.logb_one]
  · intro x
    cases x <;> rfl
  · intro t
    rfl

/-- C5 witness: the humidity ≤ 0 branch at concrete inputs. -/
theorem dew_point_behavior_witness :
    calculate_dew_point (some 5) (some (-3)) = none :=
  dew_point_behavior.1 5 (-3) (by norm_num)

/-- C8: the update cursor starts at zero; over a batch whose identifiers all
exceed the cursor and ascend pairwise, the cursor never decreases and ends
at or past every observed identifier, whether or not handling an update
faulted; after the batch [5,6,7] the next poll offset is strictly after 7. -/
theorem update_cursor_properties :
    initial_last_update_id = 0 ∧
    (∀ (c : ℤ) (us : List Update),
      (∀ u ∈ us, c < u.update_id) →
      us.Pairwise (fun a b => a.update_id < b.update_id) →
      c ≤ run_batch c us ∧ ∀ u ∈ us, u.update_id ≤ run_batch c us) ∧
    (∀ (c : ℤ) (f1 f2 f3 : Bool),
      next_offset (run_batch c [⟨5, f1⟩, ⟨6, f2⟩, ⟨7, f3⟩]) = 8) := by
  refine ⟨rfl, ?_, ?_⟩
  · intro c us
    induction us generalizing c with
    | nil =>
      intro _ _
      exact ⟨le_refl c, by simp⟩
    | cons u ustail ih =>
      intro hlt hpw
      have hrb : run_batch c (u :: ustail) = run_batch u.update_id ustail := rfl
      have hpw' := List.pairwise_cons.mp hpw
      have ih' := ih u.update_id (fun v hv => hpw'.1 v hv) hpw'.2
      constructor
      · have h1 : c < u.update_id := hlt u (List.mem_cons_self u ustail)
        rw [hrb]
        exact le_of_lt (lt_of_lt_of_le h1 ih'.1)
      · intro w hw
        rw [hrb]
        rcases List.mem_cons.mp hw with h | h
        · rw [h]
          exact ih'.1
        · exact ih'.2 w h
  · intro c f1 f2 f3
    rfl

/-- C8 witness: the batch [5,6,7] with a fault while handling update 6. -/
theorem update_cursor_properties_witness :
    0 ≤ run_batch 0 [⟨5, false⟩, ⟨6, true⟩, ⟨7, false⟩] ∧
    next_offset (run_batch 0 [⟨5, false⟩, ⟨6, true⟩, ⟨7, false⟩]) = 8 :=
  ⟨(update_cursor_properties.2.1 0 [⟨5, false⟩, ⟨6, true⟩, ⟨7, false⟩]
      (by decide) (by decide)).1,
   update_cursor_properties.2.2 0 false true false⟩

theorem findHourIndex_sound (dom : Nat) :
    ∀ (l : List TimeStamp) (i : Nat), findHourIndex dom l = some i →
      ∃ t, l[i]? = some t ∧ t.day = dom ∧ t.hour = 15 := by
  intro l
  induction l with
  | nil =>
    intro i h
    simp [findHourIndex] at h
  | cons t ts ih =>
    intro i h
    by_cases hc : t.day = dom ∧ t.hour = 15
    · rw [findHourIndex, if_pos hc] at h
      have hi : i = 0 := by simpa using h.symm
      subst hi
      exact ⟨t, by simp, hc.1, hc.2⟩
    · rw [findHourIndex, if_neg hc] at h
      rcases Option.map_eq_some'.mp h with ⟨j, hj, hij⟩
      obtain ⟨u, hu, hd, hh⟩ := ih j hj
      refine ⟨u, ?_, hd, hh⟩
      rw [← hij]
      simpa using hu

theorem findTargetIndex_sound :
    ∀ (allData : List (String × ModelData)) (dom i : Nat),
      findTargetIndex allData dom = some i →
      ∃ p ∈ allData, ∃ hr ts t, p.2.hourly = some hr ∧ hr.time = some ts ∧
        ts[i]? = some t ∧ t.day = dom ∧ t.hour = 15 := by
  intro allData
  induction allData with
  | nil =>
    intro dom i h
    simp [findTargetIndex] at h
  | cons p rest ih =>
    intro dom i h
    rcases hhr : p.2.hourly with _ | hr
    · simp only [findTargetIndex, hhr] at h
      obtain ⟨q, hq, hrest⟩ := ih dom i h
      exact ⟨q, List.mem_cons_of_mem p hq, hrest⟩
    · rcases hts : hr.time with _ | ts
      · simp only [findTargetIndex, hhr, hts] at h
        obtain ⟨q, hq, hrest⟩ := ih dom i h
        exact ⟨q, List.mem_cons_of_mem p hq, hrest⟩
      · rcases hfi : findHourIndex dom ts with _ | j
        · simp only [findTargetIndex, hhr, hts, hfi] at h
          obtain ⟨q, hq, hrest⟩ := ih dom i h
          exact ⟨q, List.mem_cons_of_mem p hq, hrest⟩
        · simp only [findTargetIndex, hhr, hts, hfi] at h
          have hij : j = i := by simpa using h
          obtain ⟨t, ht, hd, hh15⟩ := findHourIndex_sound dom ts j hfi
          rw [hij] at ht
          exact ⟨p, List.mem_cons_self p rest, hr, ts, t, hhr, hts, ht, hd, hh15⟩

/-- C1 counterexample: on a set of series with no exact 15:00 sample for the
target day the aggregator still collects a sample through the positional
fallback index 0*24+15, contrary to the claimed no-fallback guarantee. -/
theorem fallback_index_counterexample :
    findTargetIndex data1 25 = none ∧
    usedIndex data1 25 0 = 15 ∧
    (process_weather_data_var data1 25 0 "wind_speed_10m").1 = some 7 := by
  refine ⟨by decide, by decide, ?_⟩
  have h1 : collectValues data1 "wind_speed_10m" (usedIndex data1 25 0) = [7] := by
    decide
  simp [process_weather_data_var, h1, aggMean]

/-- C1 (amended): the aggregator computes one shared index for all series —
the first exact 15:00 match for the target day of month found scanning the
series in input order — and when no series has an exact match it falls back
to the positional index dayIndex*24+15, at which series still contribute
samples. -/
theorem target_index_selection (allData : List (String × ModelData)) (dom di : Nat) :
    (findTargetIndex allData dom = none → usedIndex allData dom di = di * 24 + 15) ∧
    (∀ i, findTargetIndex allData dom = some i →
      usedIndex allData dom di = i ∧
      ∃ p ∈ allData, ∃ hr ts t, p.2.hourly = some hr ∧ hr.time = some ts ∧
        ts[i]? = some t ∧ t.day = dom ∧ t.hour = 15) := by
  constructor
  · intro h
    simp [usedIndex, h]
  · intro i h
    exact ⟨by simp [usedIndex, h], findTargetIndex_sound allData dom i h⟩

/-- C1 witness: on the fixture with an exact match the shared index is the
matched position 0. -/
theorem target_index_selection_witness :
    usedIndex data2 5 0 = 0 :=
  ((target_index_selection data2 5 0).2 0 (by decide)).1

/-- C3 counterexample: with exactly one collected value the stored standard
deviation is the plain number 0 — the very value stored for a genuine
two-value zero-dispersion sample — so it is not a distinct insufficient
sample state. -/
theorem single_sample_std_counterexample :
    aggStd [5] = some 0 ∧ aggStd [5, 5] = some 0 := by
  constructor
  · rfl
  · have h : sampleVariance [5, 5] = 0 := by
      norm_num [sampleVariance]
    norm_num [aggStd, sampleStdev, h, Real.sqrt_zero]

/-- C3 (amended): per aggregated variable, zero collected values leave both
mean and standard deviation absent; exactly one collected value stores the
plain number 0 as the standard deviation (not a distinct state); two or more
store the arithmetic mean and the sample standard deviation. -/
theorem aggregation_stats (allData : List (String × ModelData))
    (dom di : Nat) (varName : String) :
    (collectValues allData varName (usedIndex allData dom di) = [] →
      process_weather_data_var allData dom di varName = (none, none)) ∧
    ((collectValues allData varName (usedIndex allData dom di)).length = 1 →
      (process_weather_data_var allData dom di varName).2 = some 0) ∧
    (2 ≤ (collectValues allData varName (usedIndex allData dom di)).length →
      (process_weather_data_var allData dom di varName).1 =
        some ((collectValues allData varName (usedIndex allData dom di)).sum /
          ((collectValues allData varName (usedIndex allData dom di)).length : ℚ)) ∧
      (process_weather_data_var allData dom di varName).2 =
        some (sampleStdev (collectValues allData varName (usedIndex allData dom di)))) := by
  refine ⟨?_, ?_, ?_⟩
  · intro h
    simp [process_weather_data_var, h, aggMean, aggStd]
  · intro h
    have hne : collectValues allData varName (usedIndex allData dom di) ≠ [] := by
      intro hh
      rw [hh] at h
      simp at h
    have hnlt : ¬ 1 < (collectValues allData varName (usedIndex allData dom di)).length := by
      omega
    simp [process_weather_data_var, aggMean, aggStd, List.isEmpty_iff, hne, hnlt]
  · intro h
    have hne : collectValues allData varName (usedIndex allData dom di) ≠ [] := by
      intro hh
      rw [hh] at h
      simp at h
    have hlt : 1 < (collectValues allData varName (usedIndex allData dom di)).length := by
      omega
    simp [process_weather_data_var, aggMean, aggStd, List.isEmpty_iff, hne, hlt]

/-- C3 witness: the single-sample fixture stores the number 0 through the
full per-variable pipeline. -/
theorem aggregation_stats_witness :
    (process_weather_data_var data1 25 0 "wind_speed_10m").2 = some 0 :=
  (aggregation_stats data1 25 0 "wind_speed_10m").2.1 (by decide)

/-- C10: the aggregator's mean for a wind-direction variable is the plain
arithmetic mean of the degree values, with no circular averaging: on the
two-model fixture reporting 350° and 10° the aggregated mean is 180°, which
renders as the opposite sector "S" while both inputs render as "N". -/
theorem wind_direction_arithmetic_mean :
    (∀ vs : List ℚ, vs ≠ [] → aggMean vs = some (vs.sum / (vs.length : ℚ))) ∧
    (process_weather_data_var data2 5 0 "wind_direction_10m").1 = some 180 ∧
    degrees_to_direction (some 350) = "N" ∧
    degrees_to_direction (some 10) = "N" ∧
    degrees_to_direction (some 180) = "S" := by
  refine ⟨?_, ?_, by decide, by decide, by decide⟩
  · intro vs h
    simp [aggMean, List.isEmpty_iff, h]
  · have h1 : collectValues data2 "wind_direction_10m" (usedIndex data2 5 0) = [350, 10] := by
      decide
    simp [process_weather_data_var, h1, aggMean]
    norm_num

/-- C10 witness: the arithmetic-mean clause at the concrete sample pair. -/
theorem wind_direction_arithmetic_mean_witness :
    aggMean [(350 : ℚ), 10] = some 180 :=
  (wind_direction_arithmetic_mean.1 [(350 : ℚ), 10] (by simp)).trans (by norm_num)

/-- C6 counterexample: the source does no modulo normalization — the
out-of-range input 372° falls through every sector to the default "N", while
the spec's normalize-then-lookup maps it to "NNE". -/
theorem compass_no_normalization_counterexample :
    degrees_to_direction (some 372) = "N" ∧ compassDirection_spec 372 = "NNE" := by
  refine ⟨by decide, ?_⟩
  have hb : (Rat.floor ((372:ℚ) / 360) : ℤ) = ⌊(372:ℚ)/360⌋ := rfl
  have hf : Rat.floor ((372:ℚ) / 360) = 1 := by
    rw [hb]
    norm_num
  have hn : normalize360 372 = 12 := by
    rw [normalize360, hf]
    norm_num
  rw [compassDirection_spec, hn]
  decide

/-- C6 (amended): on inputs already inside [0,360) the half-open sector rule
holds as specified, with boundaries 0, 11.25 and 348.75 mapping to the
sector starting at them, and a missing input gives the sentinel; but inputs
outside [0,360) are not normalized — they fall through to the default label
"N". -/
theorem degrees_to_direction_sectors (d : ℚ) :
    (0 ≤ d → d < 360 → degrees_to_direction (some d) = compassDirection_spec d) ∧
    degrees_to_direction (some 0) = "N" ∧
    degrees_to_direction (some (mkRat 45 4)) = "NNE" ∧
    degrees_to_direction (some (mkRat 1395 4)) = "N" ∧
    degrees_to_direction none = "?" ∧
    (d < 0 ∨ 360 ≤ d → degrees_to_direction (some d) = "N") := by
  refine ⟨?_, by decide, by decide, by decide, by decide, ?_⟩
  · intro h0 h1
    have hb : (Rat.floor (d / 360) : ℤ) = ⌊d / 360⌋ := rfl
    have hf : Rat.floor (d / 360) = 0 := by
      rw [hb, Int.floor_eq_zero_iff]
      constructor
      · positivity
      · rw [div_lt_one (by norm_num)]
        exact h1
    have hn : normalize360 d = d := by
      rw [normalize360, hf]
      norm_num
    show sectorLabel d = compassDirection_spec d
    rw [compassDirection_spec, hn]
  · intro hd
    show sectorLabel d = "N"
    have hnone :
        WIND_DIRECTIONS.find? (fun e => decide (e.2.1 ≤ d) && decide (d < e.2.2)) = none := by
      apply List.find?_eq_none.mpr
      intro e he
      have hbd : 0 ≤ e.2.1 ∧ e.2.2 ≤ 360 := by
        revert he
        revert e
        decide
      intro hee
      rw [Bool.and_eq_true, decide_eq_true_eq, decide_eq_true_eq] at hee
      rcases hd with hd | hd
      · linarith [hbd.1, hee.1]
      · linarith [hbd.2, hee.2]
    rw [sectorLabel, hnone]

/-- C6 witness: the in-range clause at 100°, where source and spec lookup
agree. -/
theorem degrees_to_direction_sectors_witness :
    degrees_to_direction (some 100) = compassDirection_spec 100 :=
  (degrees_to_direction_sectors 100).1 (by norm_num) (by norm_num)

/-- C9 counterexample: the text "999,0 10,20" contains the in-range pattern
"10,20", yet parse_coordinates returns nothing because only the first match
(999,0) is range-checked. -/
theorem parse_coordinates_counterexample :
    parse_coordinates sampleText1.toList = none ∧
    searchMatch (sampleText1.toList.drop 6) = some (10, 20) ∧
    (-90 : ℚ) ≤ 10 ∧ (10 : ℚ) ≤ 90 ∧ (-180 : ℚ) ≤ 20 ∧ (20 : ℚ) ≤ 180 :=
  ⟨by decide, by decide, by decide, by decide, by decide, by decide⟩

/-- C9 (amended): parse_coordinates range-checks only the leftmost pattern
match: it returns that pair exactly when it is inside the valid ranges and
returns nothing otherwise — even when a later in-range match exists — and
the message handler falls back to the default location set exactly when no
pair is returned. -/
theorem parse_coordinates_first_match (s : List Char) :
    (searchMatch s = none → parse_coordinates s = none) ∧
    (∀ la lo : ℚ, searchMatch s = some (la, lo) →
      parse_coordinates s =
        if -90 ≤ la ∧ la ≤ 90 ∧ -180 ≤ lo ∧ lo ≤ 180 then some (la, lo) else none) ∧
    (parse_coordinates s = none → message_locations s = LocChoice.defaults) ∧
    (∀ la lo : ℚ, parse_coordinates s = some (la, lo) →
      message_locations s = LocChoice.custom la lo ∧
      -90 ≤ la ∧ la ≤ 90 ∧ -180 ≤ lo ∧ lo ≤ 180) := by
  refine ⟨?_, ?_, ?_, ?_⟩
  · intro h
    simp [parse_coordinates, h]
  · intro la lo h
    simp [parse_coordinates, h]
  · intro h
    simp [message_locations, h]
  · intro la lo h
    refine ⟨by simp [message_locations, h], ?_⟩
    rcases hsm : searchMatch s with _ | p
    · simp [parse_coordinates, hsm] at h
    · simp only [parse_coordinates, hsm] at h
      split_ifs at h with hr
      obtain rfl := Option.some.inj h
      simpa using hr

/-- C9 witness: a message with one in-range pair parses to that pair. -/
theorem parse_coordinates_first_match_witness :
    parse_coordinates sampleText2.toList = some (10, 20) := by
  have h := (parse_coordinates_first_match sampleText2.toList).2.1 10 20 (by decide)
  rw [if_pos (by norm_num)] at h
  exact h

/-- C2 counterexample: when every model fetch fails for every location the
handler answers with the error message and produces no tables at all,
instead of the claimed 4 all-placeholder tables. -/
theorem all_fetch_failed_counterexample :
    process_message_default (fun _ => []) (fun _ _ => emptyData) (fun _ => "") =
      MsgOutcome.errorMsg := rfl

/-- C2 (amended): when at least one configured location has a nonempty fetch
result, handling the message produces exactly the 4 tables for day offsets
0..3 in day order, each covering exactly the locations with nonempty fetch
results; a location whose fetch failed entirely is omitted from every table
(not rendered as a placeholder row pair); when every fetch fails an error
message replaces the tables. -/
theorem process_message_tables (fetch : String → List (String × ModelData))
    (dataFor : List (String × ModelData) → Nat → ProcessedData)
    (dateText : Nat → String)
    (h : ∃ n ∈ LOCATION_NAMES, fetch n ≠ []) :
    process_message_default fetch dataFor dateText =
      MsgOutcome.tables ((List.range 4).map (fun day =>
        format_table_for_day day (dateText day)
          ((allPairs fetch).map (fun p => (p.1, dataFor p.2 day))))) ∧
    ((List.range 4).map (fun day =>
        format_table_for_day day (dateText day)
          ((allPairs fetch).map (fun p => (p.1, dataFor p.2 day))))).length = 4 ∧
    (∀ n, fetch n = [] → n ∉ (allPairs fetch).map Prod.fst) := by
  obtain ⟨n, hn, hfe⟩ := h
  have hmem : (n, fetch n) ∈ allPairs fetch := by
    apply List.mem_filter.mpr
    refine ⟨List.mem_map.mpr ⟨n, hn, rfl⟩, ?_⟩
    simp [List.isEmpty_iff, hfe]
  have hne : (allPairs fetch).isEmpty = false := by
    cases hap : allPairs fetch with
    | nil =>
      rw [hap] at hmem
      cases hmem
    | cons a l => rfl
  refine ⟨?_, by simp, ?_⟩
  · simp [process_message_default, hne]
  · intro m hm hmm
    obtain ⟨p, hp, hp1⟩ := List.mem_map.mp hmm
    obtain ⟨hpm, hpf⟩ := List.mem_filter.mp hp
    obtain ⟨n', _, rfl⟩ := List.mem_map.mp hpm
    simp only at hp1
    rw [hp1, hm] at hpf
    simp at hpf

/-- C2 witness: one successful location yields the tables outcome with
exactly 4 tables. -/
theorem process_message_tables_witness :
    process_message_default fetchOne (fun _ _ => emptyData) (fun _ => "") =
      MsgOutcome.tables ((List.range 4).map (fun day =>
        format_table_for_day day ""
          ((allPairs fetchOne).map (fun p => (p.1, emptyData))))) ∧
    ¬ "Cuchi" ∈ (allPairs fetchOne).map Prod.fst :=
  ⟨(process_message_tables fetchOne (fun _ _ => emptyData) (fun _ => "")
      ⟨"S.Jor", by decide, by simp [fetchOne, data1]⟩).1,
   (process_message_tables fetchOne (fun _ _ => emptyData) (fun _ => "")
      ⟨"S.Jor", by decide, by simp [fetchOne, data1]⟩).2.2 "Cuchi" (by simp [fetchOne])⟩

theorem padLeft_length_of_le (w : Nat) (s : String) (h : s.length ≤ w) :
    (padLeft w s).length = w := by
  rw [padLeft]
  by_cases hw : w ≤ s.length
  · rw [if_pos hw]
    omega
  · rw [if_neg hw, String.length_append]
    have hm : (String.mk (List.replicate (w - s.length) ' ')).length
        = w - s.length := by
      show (List.replicate (w - s.length) ' ').length = w - s.length
      exact List.length_replicate _ _
    omega

theorem dir_length_le (v : Option ℚ) : (degrees_to_direction v).length ≤ 3 := by
  cases v with
  | none => decide
  | some d =>
    show (sectorLabel d).length ≤ 3
    rw [sectorLabel]
    cases hf : WIND_DIRECTIONS.find?
        (fun e => decide (e.2.1 ≤ d) && decide (d < e.2.2)) with
    | none =>
      simp only [hf]
      decide
    | some e =>
      simp only [hf]
      have he := List.mem_of_find?_eq_some hf
      have hlen : ∀ x ∈ WIND_DIRECTIONS, x.1.length ≤ 3 := by decide
      exact hlen e he

theorem windCell_pad_length (v : Option ℚ) (k : Nat) (hk : 1 ≤ k)
    (h : ∀ q, v = some q → (toString (roundPy q)).length ≤ k) :
    (padLeft k (toString (windCell v))).length = k := by
  cases v with
  | none =>
    apply padLeft_length_of_le
    have h0 : (toString (windCell (none : Option ℚ))).length = 1 := rfl
    omega
  | some q => exact padLeft_length_of_le _ _ (h q rfl)

theorem thermalCell_pad_length (v : Option ℚ)
    (h : ∀ q, v = some q → (fmt1 q).length ≤ 4) :
    (padLeft 4 (thermalCell v)).length = 4 := by
  cases v with
  | none =>
    apply padLeft_length_of_le
    decide
  | some q => exact padLeft_length_of_le _ _ (h q rfl)

theorem stdCell_length (v : Option ℚ)
    (h : ∀ q, v = some q → (fmt1 (stdVal (some q))).length = 3) :
    (fmt1 (stdVal v)).length = 3 := by
  cases v with
  | none => decide
  | some q => exact h q rfl

theorem row1_body_length (d : ProcessedData) (h : rendersInWidth d) :
    (row1_body d).length = 37 := by
  obtain ⟨h1, h2, h3, h4, h5, h6, h7, h8⟩ := h
  rw [row1_body]
  simp only [String.length_append]
  rw [windCell_pad_length d.wind10 2 (by norm_num) h1,
      windCell_pad_length d.wind850 3 (by norm_num) h2,
      windCell_pad_length d.wind800 2 (by norm_num) h3,
      windCell_pad_length d.wind750 3 (by norm_num) h4,
      windCell_pad_length d.cloud 2 (by norm_num) h5,
      thermalCell_pad_length d.th850 (fun q hq => (h6 q hq).1),
      thermalCell_pad_length d.th800 (fun q hq => (h7 q hq).1),
      thermalCell_pad_length d.th750 (fun q hq => (h8 q hq).1)]
  decide

theorem row2_body_length (d : ProcessedData) (h : rendersInWidth d) :
    (row2_body d).length = 37 := by
  obtain ⟨h1, h2, h3, h4, h5, h6, h7, h8⟩ := h
  rw [row2_body]
  simp only [String.length_append]
  rw [padLeft_length_of_le 3 _ (le_trans (dir_length_le d.dir10) (by norm_num)),
      padLeft_length_of_le 4 _ (le_trans (dir_length_le d.dir850) (by norm_num)),
      padLeft_length_of_le 3 _ (le_trans (dir_length_le d.dir800) (by norm_num)),
      padLeft_length_of_le 4 _ (le_trans (dir_length_le d.dir750) (by norm_num)),
      stdCell_length d.th850 (fun q hq => (h6 q hq).2),
      stdCell_length d.th800 (fun q hq => (h7 q hq).2),
      stdCell_length d.th750 (fun q hq => (h8 q hq).2)]
  decide

/-- C7: missing values render as the fixed placeholders — 0 for row-1
magnitudes, the unknown-direction token "?", the fixed epsilon 0.1 for the ±
dispersion — never as blank cells, and as long as present values render
inside their column widths, a row's width does not depend on which values
are missing: it always equals the width of the all-placeholder row. -/
theorem renderer_fixed_placeholders (name : String) (d : ProcessedData)
    (h : rendersInWidth d) :
    (row1 name d).length = (row1 name emptyData).length ∧
    (row2 name d).length = (row2 name emptyData).length ∧
    row1 name emptyData = name ++ "| 0 |  0 | 0 |  0 | 0| 0.0| 0.0| 0.0|" ∧
    row2 name emptyData = name ++ "|  ?|   ?|  ?|   ?|% |±0.1|±0.1|±0.1|" := by
  have hemp : rendersInWidth emptyData := by
    refine ⟨?_, ?_, ?_, ?_, ?_, ?_, ?_, ?_⟩ <;> intro q hq <;> simp [emptyData] at hq
  refine ⟨?_, ?_, ?_, ?_⟩
  · rw [row1, row1, String.length_append, String.length_append,
        row1_body_length d h, row1_body_length emptyData hemp]
  · rw [row2, row2, String.length_append, String.length_append,
        row2_body_length d h, row2_body_length emptyData hemp]
  · exact congrArg (fun s => name ++ s) (by decide)
  · exact congrArg (fun s => name ++ s) (by decide)

/-- C7 witness: a fully populated in-range record renders rows of the same
width as the all-placeholder record. -/
theorem renderer_fixed_placeholders_witness :
    (row1 "S.Jor" fullData).length = (row1 "S.Jor" emptyData).length ∧
    (row2 "S.Jor" fullData).length = (row2 "S.Jor" emptyData).length := by
  have hw : rendersInWidth fullData := by
    refine ⟨?_, ?_, ?_, ?_, ?_, ?_, ?_, ?_⟩ <;> intro q hq <;> cases hq <;> decide
  exact ⟨(renderer_fixed_placeholders "S.Jor" fullData hw).1,
         (renderer_fixed_placeholders "S.Jor" fullData hw).2.1⟩
